import Mathlib

/-!
Verification of the multi-source OCR reconciliation service
(`python_ocr/advanced_ocr_service.py`) against its natural-language
specification.  Python floats are modelled as rationals (`ℚ`), Python
dicts carrying word/shape/table data as Lean structures, and fallible
Python code (exceptions) as `Except`-valued functions.  Division is
modelled with an explicit zero test (`pydiv`) wherever the Python code
can raise `ZeroDivisionError` on collaborator-supplied dimensions.
External collaborators (PyMuPDF, pytesseract, PaddleOCR, EasyOCR,
PDFPlumber, image decoding) are modelled by their outcomes — either a
value of their documented shape or a raised exception — passed in as
environment parameters, while all in-repository logic is translated
from the source.
-/

namespace AdvancedOcr

/-- Python exception values that the service can raise or catch. -/
inductive PyErr where
  | generic (msg : String)
  | zeroDivisionError
  | attributeError (name : String)
  | nameError (name : String)
  | http (status : Nat) (detail : String)
  deriving DecidableEq

/-- `str(e)` as used by the request-level handlers (modelled rendering;
for `HTTPException` it is the starlette `"<status>: <detail>"` form). -/
def pyErrStr : PyErr → String
  | .generic msg => msg
  | .zeroDivisionError => "ZeroDivisionError"
  | .attributeError name => "AttributeError: " ++ name
  | .nameError name => "NameError: " ++ name
  | .http status detail => toString status ++ ": " ++ detail

/-- An HTTP error response (`HTTPException(status_code, detail)` as the
client sees it). -/
structure HTTPExc where
  status : Nat
  detail : String
  deriving DecidableEq

/-- `{"x": ..., "y": ..., "width": ..., "height": ...}` bounding box. -/
structure BBox where
  x : ℚ
  y : ℚ
  width : ℚ
  height : ℚ
  deriving DecidableEq

/-- A word record as produced by the extraction sources (the fields the
deduplicator and reconciler read: `text`, `bbox`, `confidence`). -/
structure Word where
  text : String
  bbox : BBox
  confidence : ℚ
  deriving DecidableEq

/-- A shape record (`{"type": ..., "bbox": ...}`); shapes are
concatenated, never deduplicated, so the payload stays coarse. -/
structure Shape where
  type : String
  bbox : BBox
  deriving DecidableEq

/-- One cell of an extracted table. -/
structure TableCell where
  text : String
  row : Nat
  col : Nat
  confidence : ℚ
  deriving DecidableEq

/-- A table record produced by `_extract_pdf_tables`. -/
structure Table where
  page_number : Nat
  table_id : String
  bbox : BBox
  cells : List TableCell
  rows : Nat
  cols : Nat
  deriving DecidableEq

/-- The per-page coverage block built by `_reconcile_extraction_sources`. -/
structure Coverage where
  native_words : Nat
  ocr_words : Nat
  final_words : Nat
  coverage_percent : ℚ
  deriving DecidableEq

/-- A reconciled output page. -/
structure Page where
  page_number : Nat
  width : ℚ
  height : ℚ
  words : List Word
  tables : List Table
  shapes : List Shape
  coverage : Coverage
  deriving DecidableEq

/-- The reconciled document returned by `_reconcile_extraction_sources`. -/
structure DocumentRecord where
  pages : List Page
  total_pages : Nat
  extraction_methods : List String
  overall_coverage : ℚ
  deriving DecidableEq

/-- A source page as handed to the reconciler: the `pages` entries of
`_extract_pdf_native` (words and shapes) and `_extract_pdf_via_ocr`
(words only; its page dicts carry no `shapes` key, so
`.get("shapes", [])` yields `[]`, modelled by storing `[]`). -/
structure SrcPage where
  page_number : Nat
  width : ℚ
  height : ℚ
  words : List Word
  shapes : List Shape
  deriving DecidableEq

/-! ## Text similarity (`AdvancedOCR._text_similarity`) -/

/-- Helper for `pyTokens`: splits a character list into maximal
whitespace-free runs, like Python `str.split()` with no separator. -/
def splitWsAux : List Char → List Char → List String
  | [], acc => if acc = [] then [] else [String.mk acc.reverse]
  | c :: cs, acc =>
    if c.isWhitespace then
      if acc = [] then splitWsAux cs []
      else String.mk acc.reverse :: splitWsAux cs []
    else splitWsAux cs (c :: acc)

/-- `text.lower().split()`: lower-case the characters, then split on
whitespace runs, discarding empty fragments. -/
def pyTokens (s : String) : List String :=
  splitWsAux (s.data.map Char.toLower) []

/-- `set(text.lower().split())`, modelled as a duplicate-free list. -/
def tokenSet (s : String) : List String := (pyTokens s).dedup

/-- `AdvancedOCR._text_similarity`: Jaccard index of the two token
sets, with the source's special cases in source order: an empty
*string* gives `0.0`; two empty token *sets* give `1.0`. -/
def text_similarity (text1 text2 : String) : ℚ :=
  if text1 = "" ∨ text2 = "" then 0
  else
    let set1 := tokenSet text1
    let set2 := tokenSet text2
    if set1 = [] ∧ set2 = [] then 1
    else
      let inter := (set1.filter fun t => t ∈ set2).length
      let union := (set1 ++ set2).dedup.length
      if union > 0 then (inter : ℚ) / (union : ℚ) else 0

/-! ## Deduplication (`AdvancedOCR._deduplicate_words`) -/

/-- The inner `for existing in unique_words` scan: returns the first
existing word whose bounding box overlaps the incoming word with
IoU > 0.7 and whose text similarity exceeds 0.8 (the arithmetic is the
source's inline computation, including the `x1 < x2 and y1 < y2`
overlap guard). -/
def scan_first_duplicate (word : Word) : List Word → Option Word
  | [] => none
  | existing :: rest =>
    let bbox1 := word.bbox
    let bbox2 := existing.bbox
    let x1 := max bbox1.x bbox2.x
    let y1 := max bbox1.y bbox2.y
    let x2 := min (bbox1.x + bbox1.width) (bbox2.x + bbox2.width)
    let y2 := min (bbox1.y + bbox1.height) (bbox2.y + bbox2.height)
    if x1 < x2 ∧ y1 < y2 then
      let intersection := (x2 - x1) * (y2 - y1)
      let area1 := bbox1.width * bbox1.height
      let area2 := bbox2.width * bbox2.height
      let iou := intersection / (area1 + area2 - intersection)
      if iou > 7/10 ∧ text_similarity word.text existing.text > 8/10 then
        some existing
      else scan_first_duplicate word rest
    else scan_first_duplicate word rest

/-- The outer loop of `_deduplicate_words`: on the first match the
higher-confidence record survives (`unique_words` loses `existing` and
gains `word` at the end when the incoming word has strictly higher
confidence, otherwise the incoming word is discarded); with no match
the word is appended.  `List.erase` mirrors `unique_words.remove`. -/
def dedupGo (unique_words : List Word) : List Word → List Word
  | [] => unique_words
  | word :: rest =>
    match scan_first_duplicate word unique_words with
    | none => dedupGo (unique_words ++ [word]) rest
    | some existing =>
      if word.confidence > existing.confidence then
        dedupGo (unique_words.erase existing ++ [word]) rest
      else
        dedupGo unique_words rest

/-- `AdvancedOCR._deduplicate_words`. -/
def deduplicate_words (words : List Word) : List Word :=
  dedupGo [] words

/-- Intersection-over-Union of two unit-coordinate boxes, as the spec
words it (§4.3, §8): boxes with empty intersection have IoU 0,
otherwise intersection area over union area. -/
def iou (bbox1 bbox2 : BBox) : ℚ :=
  let x1 := max bbox1.x bbox2.x
  let y1 := max bbox1.y bbox2.y
  let x2 := min (bbox1.x + bbox1.width) (bbox2.x + bbox2.width)
  let y2 := min (bbox1.y + bbox1.height) (bbox2.y + bbox2.height)
  if x1 < x2 ∧ y1 < y2 then
    let intersection := (x2 - x1) * (y2 - y1)
    intersection /
      (bbox1.width * bbox1.height + bbox2.width * bbox2.height - intersection)
  else 0

/-! ## Reconciliation (`AdvancedOCR._reconcile_extraction_sources`) -/

/-- The loop body of `_reconcile_extraction_sources` for one page
index, over the two optional source pages for that index. -/
def reconcile_page_of (table_data : List Table) (native_page ocr_page : Option SrcPage)
    (page_idx : Nat) : Page :=
  let all_words := ((native_page.map SrcPage.words).getD [])
      ++ ((ocr_page.map SrcPage.words).getD [])
  let unique_words := deduplicate_words all_words
  let page_tables := table_data.filter fun t => t.page_number = page_idx + 1
  let native_word_count := (native_page.map fun p => p.words.length).getD 0
  let ocr_word_count := (ocr_page.map fun p => p.words.length).getD 0
  let final_word_count := unique_words.length
  let coverage_percent :=
    min 100 (((final_word_count : ℚ)
      / ((max native_word_count (max ocr_word_count 1) : Nat) : ℚ)) * 100)
  { page_number := page_idx + 1
    width := ((native_page.orElse fun _ => ocr_page).map SrcPage.width).getD 1000
    height := ((native_page.orElse fun _ => ocr_page).map SrcPage.height).getD 1000
    words := unique_words
    tables := page_tables
    shapes := ((native_page.map SrcPage.shapes).getD [])
      ++ ((ocr_page.map SrcPage.shapes).getD [])
    coverage := { native_words := native_word_count, ocr_words := ocr_word_count,
                  final_words := final_word_count,
                  coverage_percent := coverage_percent } }

/-- `AdvancedOCR._reconcile_extraction_sources`, over the `pages` lists
of the native and OCR source data and the table list. -/
def reconcile_extraction_sources (native_pages ocr_pages : List SrcPage)
    (table_data : List Table) : DocumentRecord :=
  let reconciled_pages :=
    (List.range (max native_pages.length ocr_pages.length)).map fun page_idx =>
      reconcile_page_of table_data native_pages[page_idx]? ocr_pages[page_idx]? page_idx
  { pages := reconciled_pages
    total_pages := reconciled_pages.length
    extraction_methods := ["pdf_native", "ocr_paddle", "pdf_tables"]
    overall_coverage :=
      if reconciled_pages ≠ [] then
        (reconciled_pages.map fun p => p.coverage.coverage_percent).sum
          / (reconciled_pages.length : ℚ)
      else 0 }

/-! ## Module state and object attributes -/

/-- Availability flags and initialization outcomes fixed at import time
(the try/except import blocks) and inside `AdvancedOCR.__init__`. -/
structure ModuleEnv where
  PYTESSERACT_AVAILABLE : Bool
  PDFPLUMBER_AVAILABLE : Bool
  PDF2IMAGE_AVAILABLE : Bool
  PADDLE_AVAILABLE : Bool
  EASY_OCR_AVAILABLE : Bool
  paddle_init_ok : Bool
  easy_init_ok : Bool
  deriving DecidableEq

/-- A Python attribute value, as far as truthiness matters. -/
inductive PyVal where
  | none
  | boolVal (b : Bool)
  | obj (cls : String)
  deriving DecidableEq

/-- The attribute dictionary `AdvancedOCR.__init__` leaves on the
service object: exactly `paddle_ocr`, `easy_ocr` and
`pytesseract_available` — in particular no `layout_model`. -/
def advanced_ocr_attrs (m : ModuleEnv) : List (String × PyVal) :=
  [("paddle_ocr",
      if m.PADDLE_AVAILABLE && m.paddle_init_ok then .obj "PaddleOCR" else .none),
   ("easy_ocr",
      if m.EASY_OCR_AVAILABLE && m.easy_init_ok then .obj "EasyOCR" else .none),
   ("pytesseract_available", .boolVal m.PYTESSERACT_AVAILABLE)]

/-- Python attribute lookup: a missing attribute raises
`AttributeError`. -/
def getattr (attrs : List (String × PyVal)) (name : String) : Except PyErr PyVal :=
  match attrs.lookup name with
  | some v => .ok v
  | Option.none => .error (.attributeError name)

/-- `x is not None`. -/
def is_not_none : PyVal → Bool
  | .none => false
  | _ => true

/-- Python truthiness of the modelled values. -/
def truthy : PyVal → Bool
  | .none => false
  | .boolVal b => b
  | .obj _ => true

/-- The module-level boolean globals the source assigns (one per
try/except import block).  `LAYOUT_PARSER_AVAILABLE` is referenced by
`health_check` but never defined anywhere in the module. -/
def module_bool_globals (m : ModuleEnv) : List (String × Bool) :=
  [("PYTESSERACT_AVAILABLE", m.PYTESSERACT_AVAILABLE),
   ("PDFPLUMBER_AVAILABLE", m.PDFPLUMBER_AVAILABLE),
   ("PDF2IMAGE_AVAILABLE", m.PDF2IMAGE_AVAILABLE),
   ("PADDLE_AVAILABLE", m.PADDLE_AVAILABLE),
   ("EASY_OCR_AVAILABLE", m.EASY_OCR_AVAILABLE)]

/-- Python global-name lookup: an unbound name raises `NameError`. -/
def lookup_global (m : ModuleEnv) (name : String) : Except PyErr Bool :=
  match (module_bool_globals m).lookup name with
  | some b => .ok b
  | Option.none => .error (.nameError name)

/-- The JSON object `health_check` tries to return. -/
structure HealthResponse where
  status : String
  services : List (String × Bool)
  deriving DecidableEq

/-- The `GET /health` endpoint: builds the service dict, evaluating
each entry in source order with Python name and attribute lookup and
short-circuiting `and`. -/
def health_check (m : ModuleEnv) : Except PyErr HealthResponse := do
  let paddleFlag ← lookup_global m "PADDLE_AVAILABLE"
  let paddleUp ←
    if paddleFlag then do
      let v ← getattr (advanced_ocr_attrs m) "paddle_ocr"
      pure (is_not_none v)
    else pure false
  let easyFlag ← lookup_global m "EASY_OCR_AVAILABLE"
  let easyUp ←
    if easyFlag then do
      let v ← getattr (advanced_ocr_attrs m) "easy_ocr"
      pure (is_not_none v)
    else pure false
  let layoutFlag ← lookup_global m "LAYOUT_PARSER_AVAILABLE"
  let layoutUp ←
    if layoutFlag then do
      let v ← getattr (advanced_ocr_attrs m) "layout_model"
      pure (is_not_none v)
    else pure false
  let plumberFlag ← lookup_global m "PDFPLUMBER_AVAILABLE"
  pure { status := "healthy",
         services := [("paddle_ocr", paddleUp), ("easy_ocr", easyUp),
                      ("layout_parser", layoutUp), ("pdf_plumber", plumberFlag)] }

/-! ## Coordinate normalization and the extraction sources -/

/-- Python float division: raises `ZeroDivisionError` on a zero
divisor. -/
def pydiv (a b : ℚ) : Except PyErr ℚ :=
  if b = 0 then .error .zeroDivisionError else .ok (a / b)

/-- A raw text span from PyMuPDF (`span["text"]` and `span["bbox"]`
as absolute page coordinates). -/
structure SpanRaw where
  text : String
  x0 : ℚ
  y0 : ℚ
  x1 : ℚ
  y1 : ℚ
  deriving DecidableEq

/-- Word-record construction in `_extract_pdf_native`: each span bbox
coordinate is divided by the page dimension, in source order
(x, y, width, height); no clamping is applied and the confidence is
the constant 1.0. -/
def normalize_span (width height : ℚ) (s : SpanRaw) : Except PyErr Word :=
  match pydiv s.x0 width with
  | .error e => .error e
  | .ok x =>
    match pydiv s.y0 height with
    | .error e => .error e
    | .ok y =>
      match pydiv (s.x1 - s.x0) width with
      | .error e => .error e
      | .ok w =>
        match pydiv (s.y1 - s.y0) height with
        | .error e => .error e
        | .ok h =>
          .ok { text := s.text, bbox := ⟨x, y, w, h⟩, confidence := 1 }

/-- One page as PyMuPDF hands it to `_extract_pdf_native`: dimensions,
text spans, and the output of `_extract_pdf_shapes` (which catches its
own failures and never raises, so it appears here as a plain list). -/
structure NativePageRaw where
  width : ℚ
  height : ℚ
  spans : List SpanRaw
  shapes : List Shape
  deriving DecidableEq

/-- The per-page body of `_extract_pdf_native` (no try/except: a span
normalization failure propagates). -/
def extract_native_page (idx : Nat) (pr : NativePageRaw) : Except PyErr SrcPage :=
  match pr.spans.mapM (normalize_span pr.width pr.height) with
  | .error e => .error e
  | .ok words =>
    .ok { page_number := idx + 1, width := pr.width, height := pr.height,
          words := words, shapes := pr.shapes }

/-- One row of `pytesseract.image_to_data` output (absolute pixel
coordinates, integer confidence). -/
structure TessRow where
  text : String
  conf : ℤ
  left : ℚ
  top : ℚ
  width : ℚ
  height : ℚ
  deriving DecidableEq

/-- Word construction for a tesseract row in `_multi_engine_ocr`:
divide by the image dimensions in source order, no clamping,
confidence is `int(conf) / 100.0`. -/
def normalize_tess_row (imgW imgH : ℚ) (r : TessRow) : Except PyErr Word :=
  match pydiv r.left imgW with
  | .error e => .error e
  | .ok x =>
    match pydiv r.top imgH with
    | .error e => .error e
    | .ok y =>
      match pydiv r.width imgW with
      | .error e => .error e
      | .ok w =>
        match pydiv r.height imgH with
        | .error e => .error e
        | .ok h =>
          .ok { text := r.text.trim, bbox := ⟨x, y, w, h⟩,
                confidence := (r.conf : ℚ) / 100 }

/-- The tesseract loop of `_multi_engine_ocr`: rows with confidence
above 30 and non-empty stripped text are normalized and appended; an
exception mid-loop aborts the loop and the engine-level `except` keeps
the words accumulated so far. -/
def tess_accum (imgW imgH : ℚ) : List TessRow → List Word → List Word
  | [], acc => acc
  | r :: rs, acc =>
    if r.conf > 30 then
      if r.text.trim ≠ "" then
        match normalize_tess_row imgW imgH r with
        | .ok w => tess_accum imgW imgH rs (acc ++ [w])
        | .error _ => acc
      else tess_accum imgW imgH rs acc
    else tess_accum imgW imgH rs acc

/-- A quadrilateral of four corner points, as PaddleOCR and EasyOCR
report word boxes. -/
structure Quad where
  x1 : ℚ
  y1 : ℚ
  x2 : ℚ
  y2 : ℚ
  x3 : ℚ
  y3 : ℚ
  x4 : ℚ
  y4 : ℚ
  deriving DecidableEq

def Quad.minX (q : Quad) : ℚ := min q.x1 (min q.x2 (min q.x3 q.x4))

def Quad.maxX (q : Quad) : ℚ := max q.x1 (max q.x2 (max q.x3 q.x4))

def Quad.minY (q : Quad) : ℚ := min q.y1 (min q.y2 (min q.y3 q.y4))

def Quad.maxY (q : Quad) : ℚ := max q.y1 (max q.y2 (max q.y3 q.y4))

/-- One detection from PaddleOCR or EasyOCR: corner points, text,
confidence. -/
structure EngineDet where
  box : Quad
  text : String
  confidence : ℚ
  deriving DecidableEq

/-- Word construction for a Paddle/Easy detection in
`_multi_engine_ocr`: min/max of the corner coordinates divided by the
image dimensions, no clamping. -/
def normalize_det (imgW imgH : ℚ) (d : EngineDet) : Except PyErr Word :=
  match pydiv d.box.minX imgW with
  | .error e => .error e
  | .ok x =>
    match pydiv d.box.minY imgH with
    | .error e => .error e
    | .ok y =>
      match pydiv (d.box.maxX - d.box.minX) imgW with
      | .error e => .error e
      | .ok w =>
        match pydiv (d.box.maxY - d.box.minY) imgH with
        | .error e => .error e
        | .ok h =>
          .ok { text := d.text, bbox := ⟨x, y, w, h⟩, confidence := d.confidence }

/-- The Paddle/Easy loops of `_multi_engine_ocr` (same abort-and-keep
behavior on a mid-loop exception as `tess_accum`). -/
def det_accum (imgW imgH : ℚ) : List EngineDet → List Word → List Word
  | [], acc => acc
  | d :: ds, acc =>
    match normalize_det imgW imgH d with
    | .ok w => det_accum imgW imgH ds (acc ++ [w])
    | .error _ => acc

/-- The raw outputs (or raised exceptions) of the three OCR engine
calls for one image. -/
structure EngineOutcomes where
  tesseract : Except String (List TessRow)
  paddle : Except String (List EngineDet)
  easy : Except String (List EngineDet)

/-- `AdvancedOCR._multi_engine_ocr`: tesseract runs when available;
PaddleOCR only when its engine object exists and fewer than 10 words
were found so far; EasyOCR only when its engine object exists and no
word was found; each engine body is wrapped in try/except, so an
engine failure leaves the accumulated list unchanged. -/
def multi_engine_ocr (m : ModuleEnv) (eng : EngineOutcomes) (imgW imgH : ℚ) : List Word :=
  let a0 : List Word := []
  let a1 :=
    if m.PYTESSERACT_AVAILABLE then
      match eng.tesseract with
      | .ok rows => tess_accum imgW imgH rows a0
      | .error _ => a0
    else a0
  let a2 :=
    if m.PADDLE_AVAILABLE ∧ m.paddle_init_ok ∧ a1.length < 10 then
      match eng.paddle with
      | .ok dets => det_accum imgW imgH dets a1
      | .error _ => a1
    else a1
  if m.EASY_OCR_AVAILABLE ∧ m.easy_init_ok ∧ a2.length = 0 then
    match eng.easy with
    | .ok dets => det_accum imgW imgH dets a2
    | .error _ => a2
  else a2

/-- The dimensions of one rendered PDF page (`page.get_pixmap`). -/
structure RenderPage where
  width : ℚ
  height : ℚ
  deriving DecidableEq

/-- Collaborator behavior for one PDF request: outcomes of the PyMuPDF
calls, the per-page OCR engine calls, and the PDFPlumber call (whose
value is the already-normalized table list it yields on success). -/
structure PdfEnv where
  mod : ModuleEnv
  fitz_native : Except String (List NativePageRaw)
  fitz_render : Except String (List RenderPage)
  engines : Nat → EngineOutcomes
  plumber : Except String (List Table)

/-- `AdvancedOCR._extract_pdf_native`: no per-source try/except — a
failure of the PyMuPDF call, or a zero page dimension during
normalization, propagates to the caller. -/
def extract_pdf_native (env : PdfEnv) : Except PyErr (List SrcPage) :=
  match env.fitz_native with
  | .error e => .error (.generic e)
  | .ok raws => raws.enum.mapM fun ip => extract_native_page ip.1 ip.2

/-- `AdvancedOCR._extract_pdf_via_ocr`: renders each page (uncaught on
failure) and runs the multi-engine OCR on it; the page dicts have no
`shapes` key. -/
def extract_pdf_via_ocr (env : PdfEnv) : Except PyErr (List SrcPage) :=
  match env.fitz_render with
  | .error e => .error (.generic e)
  | .ok renders =>
    .ok (renders.enum.map fun ip =>
      { page_number := ip.1 + 1, width := ip.2.width, height := ip.2.height,
        words := multi_engine_ocr env.mod (env.engines ip.1) ip.2.width ip.2.height,
        shapes := [] })

/-- `AdvancedOCR._extract_pdf_tables`: its own availability check and
try/except turn a PDFPlumber failure into an empty table list. -/
def extract_pdf_tables (env : PdfEnv) : List Table :=
  if env.mod.PDFPLUMBER_AVAILABLE then
    match env.plumber with
    | .ok tables => tables
    | .error _ => []
  else []

/-- `AdvancedOCR.extract_pdf_with_coordinates`: the three sources run
inside one try; any uncaught exception becomes an HTTP 500. -/
def extract_pdf_with_coordinates (env : PdfEnv) : Except HTTPExc DocumentRecord :=
  match extract_pdf_native env with
  | .error e => .error ⟨500, "PDF extraction failed: " ++ pyErrStr e⟩
  | .ok native_pages =>
    match extract_pdf_via_ocr env with
    | .error e => .error ⟨500, "PDF extraction failed: " ++ pyErrStr e⟩
    | .ok ocr_pages =>
      let table_data := if env.mod.PDFPLUMBER_AVAILABLE then extract_pdf_tables env else []
      .ok (reconcile_extraction_sources native_pages ocr_pages table_data)

/-! ## Image path (`AdvancedOCR.extract_image_with_layout`) -/

/-- Decoded image data (the numpy array shape). -/
structure ImgData where
  width : ℚ
  height : ℚ
  deriving DecidableEq

/-- A layout element reported by the layout model. -/
structure LayoutElem where
  type : String
  bbox : BBox
  confidence : ℚ
  deriving DecidableEq

/-- `AdvancedOCR._analyze_layout`: reads `self.layout_model` BEFORE its
try block; only then would it call the detector, whose failures it
catches and maps to `[]`. -/
def analyze_layout (attrs : List (String × PyVal))
    (detect : Except String (List LayoutElem)) : Except PyErr (List LayoutElem) :=
  match getattr attrs "layout_model" with
  | .error e => .error e
  | .ok lm =>
    if truthy lm = false then .ok []
    else
      match detect with
      | .ok elems => .ok elems
      | .error _ => .ok []

/-- One page of the image-path intermediate representation. -/
structure IRPage where
  page_number : Nat
  width : ℚ
  height : ℚ
  words : List Word
  layout_elements : List LayoutElem
  shapes : List Shape
  coverage : Coverage
  deriving DecidableEq

/-- The image-path IR document. -/
structure IRDoc where
  pages : List IRPage
  total_pages : Nat
  extraction_methods : List String
  overall_coverage : ℚ
  deriving DecidableEq

/-- `AdvancedOCR._build_intermediate_representation`. -/
def build_intermediate_representation (img : ImgData) (layout : List LayoutElem)
    (words : List Word) (shapes : List Shape) : IRDoc :=
  { pages := [{ page_number := 1, width := img.width, height := img.height,
                words := words, layout_elements := layout, shapes := shapes,
                coverage := { native_words := 0, ocr_words := words.length,
                              final_words := words.length,
                              coverage_percent := 100 } }]
    total_pages := 1
    extraction_methods := ["paddleocr", "layout_parser", "opencv_shapes"]
    overall_coverage := 100 }

/-- `AdvancedOCR.extract_image_with_layout`: decode, layout analysis,
multi-engine OCR, shape detection (which catches its own failures),
IR assembly — wrapped in one try whose handler raises HTTP 500. -/
def extract_image_with_layout (m : ModuleEnv) (eng : EngineOutcomes)
    (decode : Except String ImgData) (detect : Except String (List LayoutElem))
    (shape_detect : Except String (List Shape)) : Except HTTPExc IRDoc :=
  match decode with
  | .error e => .error ⟨500, "Image extraction failed: " ++ pyErrStr (.generic e)⟩
  | .ok img =>
    match analyze_layout (advanced_ocr_attrs m) detect with
    | .error e => .error ⟨500, "Image extraction failed: " ++ pyErrStr e⟩
    | .ok layout =>
      let words := multi_engine_ocr m eng img.width img.height
      let shapes :=
        match shape_detect with
        | .ok ss => ss
        | .error _ => []
      .ok (build_intermediate_representation img layout words shapes)

/-! ## The `POST /extract` endpoint -/

/-- Case-insensitive prefix test on character lists. -/
def chars_lead : List Char → List Char → Bool
  | [], _ => true
  | _ :: _, [] => false
  | a :: as, b :: bs => a = b && chars_lead as bs

/-- `str.lower()` (structural model). -/
def pyLower (s : String) : String := String.mk (s.data.map Char.toLower)

/-- `str.endswith(suffix)`. -/
def strEndsWith (s suffix : String) : Bool :=
  chars_lead suffix.data.reverse s.data.reverse

/-- `str.startswith(pre)`. -/
def strStartsWith (s pre : String) : Bool :=
  chars_lead pre.data s.data

def image_extensions : List String := [".jpg", ".jpeg", ".png", ".bmp", ".tiff"]

/-- The endpoint's PDF dispatch test. -/
def is_pdf_request (content_type filename : String) : Bool :=
  content_type == "application/pdf" || strEndsWith (pyLower filename) ".pdf"

/-- The endpoint's image dispatch test. -/
def is_image_request (content_type filename : String) : Bool :=
  strStartsWith content_type "image/" ||
    image_extensions.any fun ext => strEndsWith (pyLower filename) ext

/-- The two success payloads of `POST /extract`. -/
inductive ExtractResponse where
  | pdfDoc (d : DocumentRecord)
  | imageDoc (d : IRDoc)

/-- The `POST /extract` endpoint body: read the file, dispatch on
content type and filename, and a blanket `except Exception` that
re-raises anything raised inside the try — including the endpoint's
own 400 `HTTPException` — as a 500 whose detail is `str(e)`. -/
def extract_document (penv : PdfEnv) (eng : EngineOutcomes)
    (decode : Except String ImgData) (detect : Except String (List LayoutElem))
    (shape_detect : Except String (List Shape)) (read_file : Except String Unit)
    (content_type filename : String) : Except HTTPExc ExtractResponse :=
  match (match read_file with
    | .error e => Except.error (PyErr.generic e)
    | .ok _ =>
      if is_pdf_request content_type filename then
        match extract_pdf_with_coordinates penv with
        | .ok d => Except.ok (ExtractResponse.pdfDoc d)
        | .error e => Except.error (PyErr.http e.status e.detail)
      else if is_image_request content_type filename then
        match extract_image_with_layout penv.mod eng decode detect shape_detect with
        | .ok d => Except.ok (ExtractResponse.imageDoc d)
        | .error e => Except.error (PyErr.http e.status e.detail)
      else
        Except.error (PyErr.http 400 "Unsupported file type")) with
  | .ok r => .ok r
  | .error e => .error ⟨500, pyErrStr e⟩

/-! ## Concrete inputs used by counterexamples and witnesses -/

def unit_box : BBox := ⟨0, 0, 1, 1⟩

def dup_a : Word := ⟨"a b c d e", unit_box, 1/2⟩

def dup_b : Word := ⟨"b c d e f", unit_box, 3/5⟩

def dup_c : Word := ⟨"a b c d e f", unit_box, 9/10⟩

def ws_word_hi : Word := ⟨" ", unit_box, 9/10⟩

def ws_word_lo : Word := ⟨"  ", unit_box, 1/2⟩

def mod_all : ModuleEnv := ⟨true, true, true, true, true, true, true⟩

def eng_down : EngineOutcomes :=
  ⟨.error "engine down", .error "engine down", .error "engine down"⟩

def eng_ok_empty : EngineOutcomes := ⟨.ok [], .ok [], .ok []⟩

def pdf_env_engines_down : PdfEnv :=
  { mod := mod_all, fitz_native := .ok [], fitz_render := .ok [],
    engines := fun _ => eng_down, plumber := .error "plumber down" }

def pdf_env_native_down : PdfEnv :=
  { mod := mod_all, fitz_native := .error "cannot open pdf stream",
    fitz_render := .ok [], engines := fun _ => eng_ok_empty, plumber := .ok [] }

def native_page_one_word : SrcPage :=
  ⟨1, 612, 792, [⟨"hello", ⟨0, 0, 1/10, 1/50⟩, 1⟩], []⟩

def c7_doc : DocumentRecord := reconcile_extraction_sources [native_page_one_word] [] []

def empty_src_page : SrcPage := ⟨1, 612, 792, [], []⟩

def c5_page : Page := ⟨1, 612, 792, [], [], [], ⟨0, 0, 0, 0⟩⟩

def span_off_page : SpanRaw := ⟨"word", 200, 10, 250, 20⟩

def tess_row0 : TessRow := ⟨"w", 80, 10, 20, 30, 40⟩

def span0 : SpanRaw := ⟨"w", 10, 20, 30, 40⟩

/-! ## Helper lemmas -/

/-- The deduplicator only ever appends incoming words or erases stored
ones, so its result is a subsequence of the stored prefix followed by
the remaining input. -/
theorem dedupGo_sublist (rest : List Word) :
    ∀ acc : List Word, List.Sublist (dedupGo acc rest) (acc ++ rest) := by
  induction rest with
  | nil => intro acc; simp [dedupGo]
  | cons w ws ih =>
    intro acc
    rw [dedupGo]
    cases scan_first_duplicate w acc with
    | none =>
      have h := ih (acc ++ [w])
      simpa using h
    | some e =>
      show (if w.confidence > e.confidence then dedupGo (acc.erase e ++ [w]) ws
          else dedupGo acc ws).Sublist (acc ++ w :: ws)
      by_cases hc : w.confidence > e.confidence
      · rw [if_pos hc]
        refine (ih (acc.erase e ++ [w])).trans ?_
        have h2 : List.Sublist ((acc.erase e) ++ ([w] ++ ws)) (acc ++ ([w] ++ ws)) :=
          (List.erase_sublist e acc).append_right _
        simpa using h2
      · rw [if_neg hc]
        refine (ih acc).trans ?_
        exact (List.sublist_cons_self w ws).append_left acc

/-- The inline scan of `_deduplicate_words` finds exactly the first
stored word satisfying the spec-level merge predicate
(IoU above 0.7 and text similarity above 0.8). -/
theorem scan_first_duplicate_eq_find (w : Word) :
    ∀ acc : List Word,
      scan_first_duplicate w acc =
        acc.find? fun e =>
          decide (iou w.bbox e.bbox > 7/10 ∧ text_similarity w.text e.text > 8/10) := by
  intro acc
  induction acc with
  | nil => rfl
  | cons e rest ih =>
    simp only [scan_first_duplicate]
    split_ifs with h1 h2
    · rw [List.find?_cons_of_pos]
      rw [decide_eq_true_eq]
      refine ⟨?_, h2.2⟩
      simp only [iou]
      rw [if_pos h1]
      exact h2.1
    · rw [List.find?_cons_of_neg, ih]
      rw [decide_eq_true_eq]
      rintro ⟨hiou, hsim⟩
      apply h2
      refine ⟨?_, hsim⟩
      simp only [iou] at hiou
      rw [if_pos h1] at hiou
      exact hiou
    · rw [List.find?_cons_of_neg, ih]
      rw [decide_eq_true_eq]
      rintro ⟨hiou, _⟩
      simp only [iou] at hiou
      rw [if_neg h1] at hiou
      exact absurd hiou (by norm_num)

/-! ## Claim theorems -/

/-- C4: a merge happens exactly at the first stored word whose box
overlaps the incoming word with IoU above 0.7 and whose text
similarity exceeds 0.8; the strictly higher-confidence record is
retained (the stored word is erased and the incoming word appended
when the incoming confidence is strictly higher, otherwise the
incoming word is discarded), and the scan stops at that first match —
later stored words are not considered. -/
theorem dedup_merge_rule (acc : List Word) (w : Word) (rest : List Word) :
    dedupGo acc (w :: rest) =
      match acc.find? (fun e =>
          decide (iou w.bbox e.bbox > 7/10 ∧ text_similarity w.text e.text > 8/10)) with
      | none => dedupGo (acc ++ [w]) rest
      | some e =>
        if w.confidence > e.confidence then dedupGo (acc.erase e ++ [w]) rest
        else dedupGo acc rest := by
  rw [dedupGo, scan_first_duplicate_eq_find]

/-- C3 counterexample: three words on the same box, two of which are
mutually dissimilar while the third matches both; the first pass
erases only the first match, leaving a still-matching pair, which a
second pass merges — so deduplication is not idempotent. -/
theorem deduplicate_words_not_idempotent :
    deduplicate_words (deduplicate_words [dup_a, dup_b, dup_c])
      ≠ deduplicate_words [dup_a, dup_b, dup_c] := by
  with_unfolding_all decide

/-- C3 (amended): a second run of the deduplicator on its own output
yields a subsequence of that output (it never adds words, but it can
remove further ones). -/
theorem deduplicate_words_second_pass_sublist (words : List Word) :
    List.Sublist (deduplicate_words (deduplicate_words words))
      (deduplicate_words words) := by
  simpa using dedupGo_sublist (deduplicate_words words) []

/-- C8 counterexample: two non-empty whitespace-only texts have
similarity 1.0 (both token sets are empty, so the source returns 1.0),
and two such words on the same box do merge — the lower-confidence one
is discarded. -/
theorem whitespace_text_similarity_merges :
    text_similarity " " "  " = 1
      ∧ deduplicate_words [ws_word_hi, ws_word_lo] = [ws_word_hi] := by
  with_unfolding_all decide

/-- C8 (amended): the similarity is 0.0 whenever at least one string
is empty, and whenever exactly one of the two tokenizes to no tokens;
only a pair of non-empty strings that both tokenize to nothing (two
whitespace-only strings) escapes to the 1.0 branch. -/
theorem text_similarity_zero_cases (text1 text2 : String)
    (h : text1 = "" ∨ text2 = ""
        ∨ (tokenSet text1 = [] ∧ tokenSet text2 ≠ [])
        ∨ (tokenSet text1 ≠ [] ∧ tokenSet text2 = [])) :
    text_similarity text1 text2 = 0 := by
  rcases h with h | h | ⟨h1, h2⟩ | ⟨h1, h2⟩
  · simp [text_similarity, h]
  · simp [text_similarity, h]
  · simp only [text_similarity]
    split_ifs with he hb hu
    · rfl
    · exact absurd hb.2 h2
    · simp [h1]
    · rfl
  · simp only [text_similarity]
    split_ifs with he hb hu
    · rfl
    · exact absurd hb.1 h1
    · simp [h2]
    · rfl

/-- C8 witness: the amended statement at the concrete pair
`("", "abc")`. -/
theorem text_similarity_zero_cases_witness :
    text_similarity "" "abc" = 0 :=
  text_similarity_zero_cases "" "abc" (Or.inl rfl)

/-- The coverage formula always lands in `[0, 100]`: the divisor is at
least 1 and the result is capped by the outer `min`. -/
theorem coverage_formula_bounds (nc oc fc : Nat) :
    0 ≤ min 100 (((fc : ℚ) / ((max nc (max oc 1) : Nat) : ℚ)) * 100)
    ∧ min 100 (((fc : ℚ) / ((max nc (max oc 1) : Nat) : ℚ)) * 100) ≤ 100 := by
  constructor
  · apply le_min
    · norm_num
    · apply mul_nonneg
      · exact div_nonneg (Nat.cast_nonneg fc) (Nat.cast_nonneg _)
      · norm_num
  · exact min_le_left _ _

/-- Per-page form of claim C5, over the two optional source pages. -/
theorem reconcile_page_of_coverage (td : List Table) (np op : Option SrcPage) (idx : Nat) :
    (reconcile_page_of td np op idx).coverage.coverage_percent
        = min 100 ((((reconcile_page_of td np op idx).coverage.final_words : ℚ)
            / ((max (reconcile_page_of td np op idx).coverage.native_words
                 (max (reconcile_page_of td np op idx).coverage.ocr_words 1) : Nat) : ℚ)) * 100)
    ∧ 0 ≤ (reconcile_page_of td np op idx).coverage.coverage_percent
    ∧ (reconcile_page_of td np op idx).coverage.coverage_percent ≤ 100
    ∧ ((reconcile_page_of td np op idx).coverage.native_words = 0 →
        (reconcile_page_of td np op idx).coverage.ocr_words = 0 →
        (reconcile_page_of td np op idx).coverage.coverage_percent = 0) := by
  refine ⟨rfl, (coverage_formula_bounds _ _ _).1, (coverage_formula_bounds _ _ _).2, ?_⟩
  intro h0 h1
  have h0' : (np.map fun p => p.words.length).getD 0 = 0 := h0
  have h1' : (op.map fun p => p.words.length).getD 0 = 0 := h1
  have hw1 : (np.map SrcPage.words).getD [] = [] := by
    rcases np with _ | p1
    · rfl
    · simp only [Option.map_some', Option.getD_some]
      exact List.length_eq_zero.mp (by simpa using h0')
  have hw2 : (op.map SrcPage.words).getD [] = [] := by
    rcases op with _ | p2
    · rfl
    · simp only [Option.map_some', Option.getD_some]
      exact List.length_eq_zero.mp (by simpa using h1')
  have hcp : (reconcile_page_of td np op idx).coverage.coverage_percent
      = min 100 (((deduplicate_words
            ((np.map SrcPage.words).getD [] ++ (op.map SrcPage.words).getD [])).length : ℚ)
          / ((max ((np.map fun p => p.words.length).getD 0)
               (max ((op.map fun p => p.words.length).getD 0) 1) : Nat) : ℚ) * 100) := rfl
  rw [hcp, hw1, hw2, h0', h1']
  norm_num [deduplicate_words, dedupGo]

/-- C5: every reconciled page's `coverage_percent` equals
`min(100, final_words / max(native_words, ocr_words, 1) * 100)`, lies
in `[0, 100]`, and is 0 (not a division error) when both sources
yield zero words. -/
theorem coverage_percent_formula (native_pages ocr_pages : List SrcPage)
    (table_data : List Table) (p : Page)
    (hp : p ∈ (reconcile_extraction_sources native_pages ocr_pages table_data).pages) :
    p.coverage.coverage_percent
        = min 100 (((p.coverage.final_words : ℚ)
            / ((max p.coverage.native_words (max p.coverage.ocr_words 1) : Nat) : ℚ)) * 100)
    ∧ 0 ≤ p.coverage.coverage_percent ∧ p.coverage.coverage_percent ≤ 100
    ∧ (p.coverage.native_words = 0 → p.coverage.ocr_words = 0 →
        p.coverage.coverage_percent = 0) := by
  simp only [reconcile_extraction_sources, List.mem_map, List.mem_range] at hp
  obtain ⟨idx, _, rfl⟩ := hp
  exact reconcile_page_of_coverage table_data native_pages[idx]? ocr_pages[idx]? idx

set_option maxRecDepth 10000 in
/-- C5 witness: the theorem applied to a one-page document whose two
sources both yield zero words; the page's coverage is the defined
value 0. -/
theorem coverage_percent_formula_witness :
    c5_page.coverage.coverage_percent
        = min 100 (((c5_page.coverage.final_words : ℚ)
            / ((max c5_page.coverage.native_words
                 (max c5_page.coverage.ocr_words 1) : Nat) : ℚ)) * 100)
    ∧ 0 ≤ c5_page.coverage.coverage_percent ∧ c5_page.coverage.coverage_percent ≤ 100
    ∧ (c5_page.coverage.native_words = 0 → c5_page.coverage.ocr_words = 0 →
        c5_page.coverage.coverage_percent = 0) :=
  coverage_percent_formula [empty_src_page] [] [] c5_page (by with_unfolding_all decide)

/-- C7 (amended): `extraction_methods` is the hardcoded constant list
`["pdf_native", "ocr_paddle", "pdf_tables"]`, independent of which
sources contributed records. -/
theorem extraction_methods_constant (native_pages ocr_pages : List SrcPage)
    (table_data : List Table) :
    (reconcile_extraction_sources native_pages ocr_pages table_data).extraction_methods
      = ["pdf_native", "ocr_paddle", "pdf_tables"] := rfl

/-- C7 counterexample: a document whose only records come from the
native source still lists `ocr_paddle` and `pdf_tables` among its
extraction methods although those sources contributed zero records. -/
theorem extraction_methods_list_noncontributing_sources :
    ("ocr_paddle" ∈ c7_doc.extraction_methods
      ∧ "pdf_tables" ∈ c7_doc.extraction_methods)
    ∧ (c7_doc.pages.map fun p => p.coverage.ocr_words).sum = 0
    ∧ (c7_doc.pages.map fun p => p.tables.length).sum = 0 := by
  with_unfolding_all decide

/-- C1 counterexample: with every collaborator healthy except the
native PyMuPDF extraction (which raises), `extract_pdf_with_coordinates`
produces no `DocumentRecord`: the single source failure aborts the
request with HTTP 500. -/
theorem native_source_failure_aborts_request :
    extract_pdf_with_coordinates pdf_env_native_down
      = .error ⟨500, "PDF extraction failed: cannot open pdf stream"⟩ := rfl

/-- C1 (amended): provided the native extraction and the PDF page
rendering succeed, the pipeline always produces a `DocumentRecord`:
failures of each individual OCR engine and of the table detector are
caught and treated as empty contributions.  A failure of the native
text extraction (or of the rendering feeding OCR) is, by contrast, not
caught per-source and aborts the request. -/
theorem pdf_pipeline_tolerates_engine_and_table_failures
    (env : PdfEnv) (native_pages : List SrcPage) (renders : List RenderPage)
    (hn : extract_pdf_native env = .ok native_pages)
    (hr : env.fitz_render = .ok renders) :
    ∃ doc : DocumentRecord, extract_pdf_with_coordinates env = .ok doc := by
  refine ⟨reconcile_extraction_sources native_pages
      (renders.enum.map fun ip =>
        { page_number := ip.1 + 1, width := ip.2.width, height := ip.2.height,
          words := multi_engine_ocr env.mod (env.engines ip.1) ip.2.width ip.2.height,
          shapes := [] })
      (if env.mod.PDFPLUMBER_AVAILABLE then extract_pdf_tables env else []), ?_⟩
  simp only [extract_pdf_with_coordinates, hn, extract_pdf_via_ocr, hr]

/-- C1 witness: a run in which every OCR engine raises and PDFPlumber
raises still yields a document. -/
theorem pdf_pipeline_tolerates_engine_and_table_failures_witness :
    ∃ doc : DocumentRecord,
      extract_pdf_with_coordinates pdf_env_engines_down = .ok doc :=
  pdf_pipeline_tolerates_engine_and_table_failures pdf_env_engines_down [] [] rfl rfl

/-- C2: `extract_image_with_layout` never returns an intermediate
representation: `__init__` leaves no `layout_model` attribute,
`_analyze_layout` reads it before its try block, and the resulting
`AttributeError` reaches only the request-level handler, which raises
HTTP 500; a decode failure lands on the same 500 handler. -/
theorem extract_image_always_500 (m : ModuleEnv) (eng : EngineOutcomes)
    (detect : Except String (List LayoutElem))
    (shape_detect : Except String (List Shape)) :
    ((advanced_ocr_attrs m).lookup "layout_model" = none)
    ∧ (∀ img : ImgData, extract_image_with_layout m eng (.ok img) detect shape_detect
        = .error ⟨500, "Image extraction failed: AttributeError: layout_model"⟩)
    ∧ (∀ e : String, extract_image_with_layout m eng (.error e) detect shape_detect
        = .error ⟨500, "Image extraction failed: " ++ e⟩) := by
  refine ⟨rfl, fun img => rfl, fun e => rfl⟩

/-- C6 (code bug): for a file that is neither a PDF nor an image, the
endpoint's own 400 `HTTPException` is raised inside its blanket
`except Exception`, so the client receives HTTP 500 with detail
`"400: Unsupported file type"` instead of the intended 400. -/
theorem unsupported_file_type_returns_500 (penv : PdfEnv) (eng : EngineOutcomes)
    (decode : Except String ImgData) (detect : Except String (List LayoutElem))
    (shape_detect : Except String (List Shape)) (content_type filename : String)
    (hpdf : is_pdf_request content_type filename = false)
    (himg : is_image_request content_type filename = false) :
    extract_document penv eng decode detect shape_detect (.ok ()) content_type filename
      = .error ⟨500, "400: Unsupported file type"⟩ := by
  simp only [extract_document, hpdf, himg, Bool.false_eq_true, if_false]
  rfl

/-- C6 witness: the concrete upload `("text/plain", "notes.txt")`. -/
theorem unsupported_file_type_returns_500_witness :
    extract_document pdf_env_engines_down eng_down (.error "no image")
        (.error "no layout") (.error "no shapes") (.ok ()) "text/plain" "notes.txt"
      = .error ⟨500, "400: Unsupported file type"⟩ :=
  unsupported_file_type_returns_500 pdf_env_engines_down eng_down (.error "no image")
    (.error "no layout") (.error "no shapes") "text/plain" "notes.txt"
    (by with_unfolding_all decide) (by with_unfolding_all decide)

/-- C9 (amended): coordinate normalization (native span path and
tesseract OCR path) divides each field by the page or image dimension
with no clamping — the output fields are the exact quotients, which
may lie outside `[0, 1]` — and a zero dimension raises an unguarded
`ZeroDivisionError`; there is no `InvalidPageDimension` error. -/
theorem normalization_unclamped_and_division_unguarded
    (s : SpanRaw) (r : TessRow) (w h : ℚ) :
    (w = 0 → normalize_span w h s = .error .zeroDivisionError
        ∧ normalize_tess_row w h r = .error .zeroDivisionError)
    ∧ (w ≠ 0 → h = 0 → normalize_span w h s = .error .zeroDivisionError
        ∧ normalize_tess_row w h r = .error .zeroDivisionError)
    ∧ (w ≠ 0 → h ≠ 0 →
        normalize_span w h s
          = .ok ⟨s.text, ⟨s.x0 / w, s.y0 / h, (s.x1 - s.x0) / w, (s.y1 - s.y0) / h⟩, 1⟩
        ∧ normalize_tess_row w h r
          = .ok ⟨r.text.trim, ⟨r.left / w, r.top / h, r.width / w, r.height / h⟩,
              (r.conf : ℚ) / 100⟩) := by
  refine ⟨fun hw => ?_, fun hw hh => ?_, fun hw hh => ?_⟩
  · constructor <;> simp [normalize_span, normalize_tess_row, pydiv, hw]
  · constructor <;> simp [normalize_span, normalize_tess_row, pydiv, hw, hh]
  · constructor <;> simp [normalize_span, normalize_tess_row, pydiv, hw, hh]

/-- C9 counterexample: a span lying to the right of a 100-point-wide
page normalizes to `x = 2`, outside `[0, 1]` — nothing clamps it. -/
theorem native_normalization_not_clamped :
    normalize_span 100 100 span_off_page
      = .ok ⟨"word", ⟨2, 1/10, 1/2, 1/10⟩, 1⟩
    ∧ ¬ ((2 : ℚ) ≤ 1) := by
  constructor
  · with_unfolding_all rfl
  · norm_num

/-- C9 witness: the amended statement instantiated at a concrete span
on a 100×50 page, and the same span on a zero-width page. -/
theorem normalization_unclamped_witness :
    normalize_span 100 50 span0
      = .ok ⟨"w", ⟨10 / 100, 20 / 50, (30 - 10) / 100, (40 - 20) / 50⟩, 1⟩
    ∧ normalize_span 0 50 span0 = .error .zeroDivisionError := by
  constructor
  · exact ((normalization_unclamped_and_division_unguarded span0 tess_row0 100 50).2.2
      (by norm_num) (by norm_num)).1
  · exact ((normalization_unclamped_and_division_unguarded span0 tess_row0 0 50).1 rfl).1

/-- C10 (code bug): every `GET /health` evaluation raises `NameError`
on the undefined global `LAYOUT_PARSER_AVAILABLE` (and would next trip
over the missing `layout_model` attribute), so the endpoint returns an
error instead of the availability JSON. -/
theorem health_check_raises_name_error (m : ModuleEnv) :
    health_check m = .error (.nameError "LAYOUT_PARSER_AVAILABLE") := by
  rcases m with ⟨a, b, c, d, e, f, g⟩
  cases d <;> cases e <;> rfl

end AdvancedOcr
